import Mathlib

/-!
Shallow embedding of the MediVault biometric credential gate
(`src/medivault-native/src/services/biometricService.ts`) and of the
identity provider adapter
(`src/medivault-native/src/services/firebaseAuthService.ts`).

The platform SDKs (expo-local-authentication, expo-secure-store,
firebase/auth, the Google sign-in module) are modelled as environments
that fix the outcome of each platform call; a thrown JavaScript
exception is an explicit `JsError` value.  The secure store is an
association list from keys to string values, threaded through the
stateful operations.  JavaScript string truthiness (null / undefined /
empty string are falsy) is modelled by `truthyOpt`.
-/

/-- A thrown JavaScript error: an optional `code` field (Firebase errors
carry one, plain `Error` objects do not) and an optional `message`. -/
structure JsError where
  code : Option String
  message : Option String
deriving DecidableEq, Repr

/-- JavaScript truthiness of a possibly-absent string: `null`,
`undefined` and the empty string are falsy. -/
def truthyOpt (o : Option String) : Bool :=
  match o with
  | some s => !s.isEmpty
  | none => false

/-- JavaScript `e.message || fallback`. -/
def messageOr (e : JsError) (fallback : String) : String :=
  match e.message with
  | some m => if m.isEmpty then fallback else m
  | none => fallback

/-! ## Secure store (expo-secure-store) -/

/-- The secure store state: an association list from keys to values. -/
abbrev Store := List (String × String)

def storeGet (s : Store) (k : String) : Option String :=
  (s.find? (fun kv => kv.1 == k)).map Prod.snd

def storeDel (s : Store) (k : String) : Store :=
  s.filter (fun kv => kv.1 != k)

def storeSet (s : Store) (k v : String) : Store :=
  (k, v) :: storeDel s k

/-- `medivault_biometric_enabled`, the persisted preference key. -/
def BIOMETRIC_ENABLED_KEY : String := "medivault_biometric_enabled"

/-- `medivault_stored_email`, the cached credential email key. -/
def STORED_EMAIL_KEY : String := "medivault_stored_email"

/-- `medivault_stored_password`, the cached credential password key. -/
def STORED_PASSWORD_KEY : String := "medivault_stored_password"

/-! ## Platform biometric API (expo-local-authentication) -/

/-- `LocalAuthentication.AuthenticationType`. -/
inductive LAAuthenticationType where
  | FINGERPRINT
  | FACIAL_RECOGNITION
  | IRIS
deriving DecidableEq, Repr

/-- The result object of `LocalAuthentication.authenticateAsync`:
`{success, error?}` where `error` is a platform error-code string. -/
structure LAResult where
  success : Bool
  error : Option String
deriving DecidableEq, Repr

/-- The environment fixing the behaviour of every platform call made by
the biometric service during one execution: the outcome of each
expo-local-authentication call, and a per-key fault oracle for the
secure store (a `some` fault means the store call throws). -/
structure BiometricEnv where
  hasHardwareR : Except JsError Bool
  isEnrolledR : Except JsError Bool
  supportedAuthenticationTypesR : Except JsError (List LAAuthenticationType)
  authenticateAsyncR : Except JsError LAResult
  getItemFault : String → Option JsError
  setItemFault : String → Option JsError
  deleteItemFault : String → Option JsError

/-- `SecureStore.getItemAsync`: throws when the fault oracle says so,
otherwise returns the stored value (or `null`). -/
def getItemAsync (env : BiometricEnv) (s : Store) (k : String) :
    Except JsError (Option String) :=
  match env.getItemFault k with
  | some e => .error e
  | none => .ok (storeGet s k)

/-! ## Biometric service (biometricService.ts) -/

/-- `BiometricType`. -/
inductive BiometricType where
  | fingerprint
  | facial
  | iris
  | none
deriving DecidableEq, Repr

/-- The credential pair stored for biometric login. -/
structure Credentials where
  email : String
  password : String
deriving DecidableEq, Repr

/-- `BiometricAuthResult`: `{success, error?, credentials?}`. -/
structure BiometricAuthResult where
  success : Bool
  error : Option String
  credentials : Option Credentials
deriving DecidableEq, Repr

/-- `hasHardwareAsync`: returns `false` on a platform query failure. -/
def hasHardwareAsync (env : BiometricEnv) : Bool :=
  match env.hasHardwareR with
  | .ok b => b
  | .error _ => false

/-- `isEnrolledAsync`: returns `false` on a platform query failure. -/
def isEnrolledAsync (env : BiometricEnv) : Bool :=
  match env.isEnrolledR with
  | .ok b => b
  | .error _ => false

/-- The `switch` in `getSupportedBiometricTypes` mapping each platform
authentication type to a `BiometricType`. -/
def mapAuthenticationType : LAAuthenticationType → BiometricType
  | .FINGERPRINT => .fingerprint
  | .FACIAL_RECOGNITION => .facial
  | .IRIS => .iris

/-- `getSupportedBiometricTypes`: maps the platform list, returning the
sentinel `['none']` when the mapped list is empty or the query throws. -/
def getSupportedBiometricTypes (env : BiometricEnv) : List BiometricType :=
  match env.supportedAuthenticationTypesR with
  | .error _ => [BiometricType.none]
  | .ok types =>
    let biometricTypes := types.map mapAuthenticationType
    if biometricTypes.length > 0 then biometricTypes else [BiometricType.none]

/-- `getBiometricTypeName`: precedence Facial > Fingerprint > Iris >
generic. -/
def getBiometricTypeName (env : BiometricEnv) : String :=
  let types := getSupportedBiometricTypes env
  if types.contains BiometricType.facial then "Face ID"
  else if types.contains BiometricType.fingerprint then "Fingerprint"
  else if types.contains BiometricType.iris then "Iris"
  else "Biometric"

/-- `isBiometricAvailable` := hardware present AND enrolled. -/
def isBiometricAvailable (env : BiometricEnv) : Bool :=
  hasHardwareAsync env && isEnrolledAsync env

/-- `isBiometricEnabled`: the stored preference equals the string
`"true"`; `false` on a store read failure. -/
def isBiometricEnabled (env : BiometricEnv) (s : Store) : Bool :=
  match getItemAsync env s BIOMETRIC_ENABLED_KEY with
  | .error _ => false
  | .ok enabled => enabled == some "true"

/-- `clearStoredCredentials`: deletes the email key then the password
key; any throw is swallowed (the second delete does not run if the
first throws). -/
def clearStoredCredentials (env : BiometricEnv) (s : Store) : Store :=
  match env.deleteItemFault STORED_EMAIL_KEY with
  | some _ => s
  | none =>
    let s1 := storeDel s STORED_EMAIL_KEY
    match env.deleteItemFault STORED_PASSWORD_KEY with
    | some _ => s1
    | none => storeDel s1 STORED_PASSWORD_KEY

/-- `setBiometricEnabled`: writes the preference when enabling; when
disabling, deletes the preference and then clears the credentials.  A
store failure on the preference key is rethrown as a fresh error. -/
def setBiometricEnabled (env : BiometricEnv) (s : Store) (enabled : Bool) :
    Store × Option JsError :=
  if enabled then
    match env.setItemFault BIOMETRIC_ENABLED_KEY with
    | some _ => (s, some ⟨Option.none, some "Failed to update biometric settings"⟩)
    | none => (storeSet s BIOMETRIC_ENABLED_KEY "true", Option.none)
  else
    match env.deleteItemFault BIOMETRIC_ENABLED_KEY with
    | some _ => (s, some ⟨Option.none, some "Failed to update biometric settings"⟩)
    | none =>
      (clearStoredCredentials env (storeDel s BIOMETRIC_ENABLED_KEY), Option.none)

/-- `storeCredentials`: writes the email then the password; a store
failure is rethrown as a fresh error (a partial write persists). -/
def storeCredentials (env : BiometricEnv) (s : Store) (email password : String) :
    Store × Option JsError :=
  match env.setItemFault STORED_EMAIL_KEY with
  | some _ => (s, some ⟨Option.none, some "Failed to store credentials securely"⟩)
  | none =>
    let s1 := storeSet s STORED_EMAIL_KEY email
    match env.setItemFault STORED_PASSWORD_KEY with
    | some _ => (s1, some ⟨Option.none, some "Failed to store credentials securely"⟩)
    | none => (storeSet s1 STORED_PASSWORD_KEY password, Option.none)

/-- `getStoredCredentials`: reads both keys; returns the pair only when
both values are truthy (non-null and non-empty), `null` otherwise or on
a store read failure. -/
def getStoredCredentials (env : BiometricEnv) (s : Store) : Option Credentials :=
  match getItemAsync env s STORED_EMAIL_KEY with
  | .error _ => none
  | .ok email =>
    match getItemAsync env s STORED_PASSWORD_KEY with
    | .error _ => none
    | .ok password =>
      if truthyOpt email && truthyOpt password then
        some { email := email.getD "", password := password.getD "" }
      else none

/-- `hasStoredCredentials`. -/
def hasStoredCredentials (env : BiometricEnv) (s : Store) : Bool :=
  (getStoredCredentials env s).isSome

/-- `setupBiometricLogin`: stores the credentials then enables the
preference; any throw is rethrown as a fresh error. -/
def setupBiometricLogin (env : BiometricEnv) (s : Store) (email password : String) :
    Store × Option JsError :=
  match storeCredentials env s email password with
  | (s1, some _) => (s1, some ⟨Option.none, some "Failed to setup biometric login"⟩)
  | (s1, none) =>
    match setBiometricEnabled env s1 true with
    | (s2, some _) => (s2, some ⟨Option.none, some "Failed to setup biometric login"⟩)
    | (s2, none) => (s2, Option.none)

/-- `disableBiometricLogin`: disables the preference (which already
clears the credentials) and clears the credentials again; any throw is
rethrown as a fresh error. -/
def disableBiometricLogin (env : BiometricEnv) (s : Store) :
    Store × Option JsError :=
  match setBiometricEnabled env s false with
  | (s1, some _) => (s1, some ⟨Option.none, some "Failed to disable biometric login"⟩)
  | (s1, none) => (clearStoredCredentials env s1, Option.none)

/-- `canUseBiometricLogin` := available AND enabled AND credentials
stored. -/
def canUseBiometricLogin (env : BiometricEnv) (s : Store) : Bool :=
  isBiometricAvailable env && isBiometricEnabled env s &&
    hasStoredCredentials env s

/-- Observable interactions of one `authenticateWithBiometrics` run:
secure-store reads (the key read) and the platform prompt (with its
resolved prompt message).  The function performs no store writes. -/
inductive Event where
  | getItem (key : String)
  | promptShown (promptMessage : String)
deriving DecidableEq, Repr

/-- The store-read events of one `getStoredCredentials` call: the email
key is always read; the password key is read unless the email read
threw. -/
def credentialReadEvents (env : BiometricEnv) : List Event :=
  match env.getItemFault STORED_EMAIL_KEY with
  | some _ => [Event.getItem STORED_EMAIL_KEY]
  | none => [Event.getItem STORED_EMAIL_KEY, Event.getItem STORED_PASSWORD_KEY]

/-- The `switch (result.error)` of `authenticateWithBiometrics` mapping
a platform error code to a user-facing message. -/
def promptFailureMessage (e : Option String) : String :=
  match e with
  | some "system_cancel" => "Authentication was cancelled by the system"
  | some "app_cancel" => "Authentication was cancelled"
  | some "authentication_failed" => "Authentication failed. Please try again."
  | some "not_enrolled" => "No biometrics enrolled on this device"
  | some "not_available" => "Biometric authentication is not available"
  | some "passcode_not_set" => "Device passcode is not set"
  | some "timeout" => "Authentication timed out. Please try again."
  | _ => "Biometric authentication failed"

/-- The `promptMessage || default` resolution of the prompt options:
a falsy caller message falls back to the label-derived default. -/
def resolvePromptMessage (promptMessage : Option String) (biometricName : String) : String :=
  if truthyOpt promptMessage then promptMessage.getD ""
  else "Login to MediVault with " ++ biometricName

/-- `authenticateWithBiometrics`: availability check, enabled check,
stored-credentials check, then the platform prompt; the cached pair is
returned exactly when the prompt reports success.  A throw from the
prompt is caught by the outer catch.  The second component is the trace
of observable interactions, in order. -/
def authenticateWithBiometrics (env : BiometricEnv) (s : Store)
    (promptMessage : Option String) : BiometricAuthResult × List Event :=
  if isBiometricAvailable env = false then
    ({ success := false,
       error := some "Biometric authentication is not available on this device",
       credentials := none }, [])
  else
    let ev1 : List Event := [Event.getItem BIOMETRIC_ENABLED_KEY]
    if isBiometricEnabled env s = false then
      ({ success := false,
         error := some "Biometric login is not enabled",
         credentials := none }, ev1)
    else
      let ev2 := ev1 ++ credentialReadEvents env
      match getStoredCredentials env s with
      | none =>
        ({ success := false,
           error := some "No stored credentials found. Please log in with your password first.",
           credentials := none }, ev2)
      | some credentials =>
        let biometricName := getBiometricTypeName env
        let ev3 := ev2 ++ [Event.promptShown (resolvePromptMessage promptMessage biometricName)]
        match env.authenticateAsyncR with
        | .error e =>
          ({ success := false,
             error := some (messageOr e "An unexpected error occurred"),
             credentials := none }, ev3)
        | .ok result =>
          if result.success then
            ({ success := true, error := none, credentials := some credentials }, ev3)
          else
            ({ success := false,
               error := some (promptFailureMessage result.error),
               credentials := none }, ev3)

/-! ## Spec-side modality abstraction (for the supported-modalities claim) -/

/-- The spec data model: `Modality ∈ {Fingerprint, Facial, Iris}`. -/
inductive Modality where
  | Fingerprint
  | Facial
  | Iris
deriving DecidableEq, Repr

/-- The set of modalities denoted by a `BiometricType` list: the
sentinel `none` denotes no modality. -/
def modalitiesOf (l : List BiometricType) : List Modality :=
  l.filterMap (fun t =>
    match t with
    | BiometricType.fingerprint => some Modality.Fingerprint
    | BiometricType.facial => some Modality.Facial
    | BiometricType.iris => some Modality.Iris
    | BiometricType.none => none)

/-! ## Identity provider adapter (firebaseAuthService.ts) -/

/-- The fields of a remote `firebase/auth` `User` that the adapter
reads. -/
structure FirebaseUser where
  uid : String
  email : Option String
  displayName : Option String
  photoURL : Option String
  emailVerified : Bool
deriving DecidableEq, Repr

/-- `AuthUser`, the adapter-facing view of a session user. -/
structure AuthUser where
  uid : String
  email : Option String
  displayName : Option String
  photoURL : Option String
  emailVerified : Bool
deriving DecidableEq, Repr

/-- `mapFirebaseUser`. -/
def mapFirebaseUser (user : FirebaseUser) : AuthUser :=
  { uid := user.uid
    email := user.email
    displayName := user.displayName
    photoURL := user.photoURL
    emailVerified := user.emailVerified }

/-- `SignUpData`. -/
structure SignUpData where
  email : String
  password : String
  displayName : Option String
deriving DecidableEq, Repr

/-- `getAuthErrorMessage`: the string-keyed lookup table with its
generic fallback. -/
def getAuthErrorMessage (errorCode : String) : String :=
  match errorCode with
  | "auth/email-already-in-use" => "This email is already registered. Please sign in instead."
  | "auth/invalid-email" => "Please enter a valid email address."
  | "auth/operation-not-allowed" => "Email/password sign-in is not enabled."
  | "auth/weak-password" => "Password should be at least 6 characters."
  | "auth/user-disabled" => "This account has been disabled."
  | "auth/user-not-found" => "No account found with this email."
  | "auth/wrong-password" => "Incorrect password. Please try again."
  | "auth/too-many-requests" => "Too many failed attempts. Please try again later."
  | "auth/network-request-failed" => "Network error. Please check your connection."
  | "auth/invalid-credential" => "Invalid credentials. Please check your email and password."
  | "auth/account-exists-with-different-credential" => "An account already exists with the same email address but different sign-in credentials."
  | _ => "An authentication error occurred. Please try again."

/-- The environment fixing the outcome of the remote firebase/auth
calls made during one `signUp` execution. -/
structure FirebaseAuthEnv where
  createUserR : Except JsError FirebaseUser
  updateProfileR : Except JsError Unit

/-- The remote calls `signUp` can issue, in order (the adapter has no
account-deletion call). -/
inductive FbEvent where
  | createUserCall
  | updateProfileCall
deriving DecidableEq, Repr

/-- `signUp`: creates the remote account; when a truthy `displayName`
is given, updates the profile inside the same try block, so a profile
update failure is caught and rethrown as the mapped auth error.  On
update success the returned user carries the new display name.  The
second component is the trace of remote calls. -/
def signUp (env : FirebaseAuthEnv) (data : SignUpData) :
    Except String AuthUser × List FbEvent :=
  match env.createUserR with
  | .error e => (.error (getAuthErrorMessage (e.code.getD "")), [FbEvent.createUserCall])
  | .ok user =>
    if truthyOpt data.displayName then
      match env.updateProfileR with
      | .error e =>
        (.error (getAuthErrorMessage (e.code.getD "")),
         [FbEvent.createUserCall, FbEvent.updateProfileCall])
      | .ok _ =>
        (.ok (mapFirebaseUser { user with displayName := data.displayName }),
         [FbEvent.createUserCall, FbEvent.updateProfileCall])
    else
      (.ok (mapFirebaseUser user), [FbEvent.createUserCall])

/-! ## Google sign-in (optional OAuth provider module) -/

/-- The `statusCodes` constants exported by the Google sign-in
module. -/
structure GoogleStatusCodes where
  SIGN_IN_CANCELLED : String
  IN_PROGRESS : String
  PLAY_SERVICES_NOT_AVAILABLE : String
deriving DecidableEq, Repr

/-- The Google sign-in module as obtained by `require`. -/
structure GoogleSignInModule where
  statusCodes : GoogleStatusCodes
deriving DecidableEq, Repr

/-- The module-level state set once at process start: the
`GoogleSignin` handle (modelled by its presence), the `statusCodes`
object, and the `googleSignInAvailable` flag. -/
structure GoogleModuleState where
  googleSigninPresent : Bool
  statusCodes : Option GoogleStatusCodes
  googleSignInAvailable : Bool
deriving DecidableEq, Repr

/-- The module-load try block at process start: if `require` throws
(`none`), the handle stays null and the flag stays `false`; otherwise
both are set. -/
def loadGoogleSignInModule (requireR : Option GoogleSignInModule) :
    GoogleModuleState :=
  match requireR with
  | none => { googleSigninPresent := false, statusCodes := none,
              googleSignInAvailable := false }
  | some m => { googleSigninPresent := true, statusCodes := some m.statusCodes,
                googleSignInAvailable := true }

/-- `isGoogleSignInAvailable`. -/
def isGoogleSignInAvailable (st : GoogleModuleState) : Bool :=
  st.googleSignInAvailable

/-- The environment fixing the outcome of each OAuth protocol step
during one `signInWithGoogle` execution: the play-services check, the
token request (yielding `data?.idToken`), and the credential
exchange. -/
structure GoogleCallEnv where
  hasPlayServicesR : Except JsError Unit
  signInR : Except JsError (Option String)
  signInWithCredentialR : Except JsError FirebaseUser

/-- The OAuth protocol steps `signInWithGoogle` can issue, in order. -/
inductive GEvent where
  | playServicesCheck
  | oauthTokenRequest
  | credentialSignIn
deriving DecidableEq, Repr

/-- The catch block of `signInWithGoogle`: compares `error.code` with
the status codes when the module (hence `statusCodes`) is present,
falling back to `error.message || generic`. -/
def mapGoogleSignInError (sc : Option GoogleStatusCodes) (e : JsError) : String :=
  match sc with
  | some codes =>
    if e.code == some codes.SIGN_IN_CANCELLED then "Google Sign-In was cancelled"
    else if e.code == some codes.IN_PROGRESS then "Google Sign-In is already in progress"
    else if e.code == some codes.PLAY_SERVICES_NOT_AVAILABLE then
      "Google Play Services is not available on this device"
    else messageOr e "Failed to sign in with Google"
  | none => messageOr e "Failed to sign in with Google"

/-- `signInWithGoogle`: throws `ProviderUnavailable` before the try
block when the module is absent; otherwise runs the play-services
check, the token request (a falsy token throws inside the try), and
the credential exchange.  The second component is the trace of OAuth
steps actually invoked. -/
def signInWithGoogle (st : GoogleModuleState) (env : GoogleCallEnv) :
    Except String AuthUser × List GEvent :=
  if !st.googleSignInAvailable || !st.googleSigninPresent then
    (.error "Google Sign-In is not available. Please use a development build instead of Expo Go.",
     [])
  else
    match env.hasPlayServicesR with
    | .error e => (.error (mapGoogleSignInError st.statusCodes e), [GEvent.playServicesCheck])
    | .ok _ =>
      match env.signInR with
      | .error e =>
        (.error (mapGoogleSignInError st.statusCodes e),
         [GEvent.playServicesCheck, GEvent.oauthTokenRequest])
      | .ok idToken =>
        if truthyOpt idToken = false then
          (.error (mapGoogleSignInError st.statusCodes
              ⟨none, some "No ID token returned from Google Sign-In"⟩),
           [GEvent.playServicesCheck, GEvent.oauthTokenRequest])
        else
          match env.signInWithCredentialR with
          | .error e =>
            (.error (mapGoogleSignInError st.statusCodes e),
             [GEvent.playServicesCheck, GEvent.oauthTokenRequest, GEvent.credentialSignIn])
          | .ok user =>
            (.ok (mapFirebaseUser user),
             [GEvent.playServicesCheck, GEvent.oauthTokenRequest, GEvent.credentialSignIn])

/-! ## Store lemmas -/

theorem storeGet_storeDel_self (s : Store) (k : String) :
    storeGet (storeDel s k) k = none := by
  induction s with
  | nil => rfl
  | cons hd tl ih =>
    cases h : hd.1 == k <;>
      simp only [storeDel, storeGet, List.filter_cons, List.find?_cons, bne, h,
        Bool.not_true, Bool.not_false, ite_true, ite_false] <;>
      simpa [storeDel, storeGet] using ih

theorem storeGet_storeDel_ne (s : Store) (k1 k2 : String) (h : k1 ≠ k2) :
    storeGet (storeDel s k1) k2 = storeGet s k2 := by
  induction s with
  | nil => rfl
  | cons hd tl ih =>
    cases h1 : hd.1 == k1
    · cases h2 : hd.1 == k2 <;>
        simp only [storeDel, storeGet, List.filter_cons, List.find?_cons, bne, h1, h2,
          Bool.not_false, ite_true, ite_false, Option.map_some] <;>
        first
          | rfl
          | simpa [storeDel, storeGet] using ih
    · have e1 : hd.1 = k1 := by simpa using h1
      have h2 : (hd.1 == k2) = false := by
        simp [e1]
        exact h
      simp only [storeDel, storeGet, List.filter_cons, List.find?_cons, bne, h1, h2,
        Bool.not_true, ite_true, ite_false]
      simpa [storeDel, storeGet] using ih

theorem storeGet_storeSet_self (s : Store) (k v : String) :
    storeGet (storeSet s k v) k = some v := by
  simp [storeSet, storeGet, List.find?_cons]

theorem storeGet_storeSet_ne (s : Store) (k1 v k2 : String) (h : k1 ≠ k2) :
    storeGet (storeSet s k1 v) k2 = storeGet s k2 := by
  have h2 : (k1 == k2) = false := by simpa using h
  simp only [storeSet, storeGet, List.find?_cons, h2, ite_false]
  simpa [storeGet] using storeGet_storeDel_ne s k1 k2 h

theorem email_key_ne_enabled_key : STORED_EMAIL_KEY ≠ BIOMETRIC_ENABLED_KEY := by decide

theorem password_key_ne_enabled_key : STORED_PASSWORD_KEY ≠ BIOMETRIC_ENABLED_KEY := by decide

theorem enabled_key_ne_email_key : BIOMETRIC_ENABLED_KEY ≠ STORED_EMAIL_KEY := by decide

theorem enabled_key_ne_password_key : BIOMETRIC_ENABLED_KEY ≠ STORED_PASSWORD_KEY := by decide

theorem password_key_ne_email_key : STORED_PASSWORD_KEY ≠ STORED_EMAIL_KEY := by decide

theorem string_isEmpty_false_of_ne (s : String) (h : s ≠ "") : s.isEmpty = false := by
  rw [Bool.eq_false_iff]
  intro hc
  exact h ((String.isEmpty_iff s).mp hc)

/-! ## Service lemmas -/

theorem storeGet_clearStoredCredentials_enabled (env : BiometricEnv) (s : Store) :
    storeGet (clearStoredCredentials env s) BIOMETRIC_ENABLED_KEY
      = storeGet s BIOMETRIC_ENABLED_KEY := by
  unfold clearStoredCredentials
  cases env.deleteItemFault STORED_EMAIL_KEY with
  | some e => rfl
  | none =>
    cases env.deleteItemFault STORED_PASSWORD_KEY with
    | some e =>
      simpa using storeGet_storeDel_ne s STORED_EMAIL_KEY BIOMETRIC_ENABLED_KEY
        email_key_ne_enabled_key
    | none =>
      simp only []
      rw [storeGet_storeDel_ne _ _ _ password_key_ne_enabled_key,
        storeGet_storeDel_ne _ _ _ email_key_ne_enabled_key]

theorem disableBiometricLogin_ok_state (env : BiometricEnv) (s s1 : Store)
    (h : disableBiometricLogin env s = (s1, none)) :
    env.deleteItemFault BIOMETRIC_ENABLED_KEY = none ∧
    s1 = clearStoredCredentials env
      (clearStoredCredentials env (storeDel s BIOMETRIC_ENABLED_KEY)) := by
  unfold disableBiometricLogin setBiometricEnabled at h
  cases hf : env.deleteItemFault BIOMETRIC_ENABLED_KEY with
  | some e => rw [hf] at h; simp at h
  | none => rw [hf] at h; simp at h; exact ⟨rfl, h.symm⟩

theorem isBiometricEnabled_false_of_get_none (env : BiometricEnv) (s : Store)
    (h : storeGet s BIOMETRIC_ENABLED_KEY = none) :
    isBiometricEnabled env s = false := by
  unfold isBiometricEnabled getItemAsync
  cases env.getItemFault BIOMETRIC_ENABLED_KEY <;> simp [h]

theorem storeGet_enabled_none_after_disable (env : BiometricEnv) (s s1 : Store)
    (h : disableBiometricLogin env s = (s1, none)) :
    storeGet s1 BIOMETRIC_ENABLED_KEY = none := by
  obtain ⟨-, hs1⟩ := disableBiometricLogin_ok_state env s s1 h
  rw [hs1, storeGet_clearStoredCredentials_enabled, storeGet_clearStoredCredentials_enabled,
    storeGet_storeDel_self]

theorem disable_fixed_point (env : BiometricEnv) (s : Store) :
    clearStoredCredentials env (clearStoredCredentials env (storeDel
      (clearStoredCredentials env (clearStoredCredentials env (storeDel s BIOMETRIC_ENABLED_KEY)))
      BIOMETRIC_ENABLED_KEY))
    = clearStoredCredentials env
        (clearStoredCredentials env (storeDel s BIOMETRIC_ENABLED_KEY)) := by
  cases hfem : env.deleteItemFault STORED_EMAIL_KEY with
  | some e =>
    simp only [clearStoredCredentials, hfem, storeDel, List.filter_filter]
    apply List.filter_congr
    intro x _
    cases h3 : x.1 == BIOMETRIC_ENABLED_KEY <;> simp [bne, h3]
  | none =>
    cases hfpw : env.deleteItemFault STORED_PASSWORD_KEY with
    | some e =>
      simp only [clearStoredCredentials, hfem, hfpw, storeDel, List.filter_filter]
      apply List.filter_congr
      intro x _
      cases h1 : x.1 == STORED_EMAIL_KEY <;> cases h3 : x.1 == BIOMETRIC_ENABLED_KEY <;>
        simp [bne, h1, h3]
    | none =>
      simp only [clearStoredCredentials, hfem, hfpw, storeDel, List.filter_filter]
      apply List.filter_congr
      intro x _
      cases h1 : x.1 == STORED_EMAIL_KEY <;> cases h2 : x.1 == STORED_PASSWORD_KEY <;>
        cases h3 : x.1 == BIOMETRIC_ENABLED_KEY <;> simp [bne, h1, h2, h3]

theorem setupBiometricLogin_ok_state (env : BiometricEnv) (s s1 : Store) (e p : String)
    (h : setupBiometricLogin env s e p = (s1, none)) :
    s1 = storeSet (storeSet (storeSet s STORED_EMAIL_KEY e) STORED_PASSWORD_KEY p)
           BIOMETRIC_ENABLED_KEY "true" := by
  unfold setupBiometricLogin storeCredentials setBiometricEnabled at h
  cases h1 : env.setItemFault STORED_EMAIL_KEY with
  | some e1 => rw [h1] at h; simp at h
  | none =>
    rw [h1] at h
    cases h2 : env.setItemFault STORED_PASSWORD_KEY with
    | some e2 => rw [h2] at h; simp at h
    | none =>
      rw [h2] at h
      cases h3 : env.setItemFault BIOMETRIC_ENABLED_KEY with
      | some e3 => rw [h3] at h; simp at h
      | none => rw [h3] at h; simp at h; exact h.symm

/-! ## Claim C1 -/

/-- Concrete environment for the enrollment claims: hardware present,
enrolled, fingerprint modality, prompt succeeds, no store faults. -/
def c1Env : BiometricEnv :=
  { hasHardwareR := .ok true, isEnrolledR := .ok true,
    supportedAuthenticationTypesR := .ok [LAAuthenticationType.FINGERPRINT],
    authenticateAsyncR := .ok { success := true, error := none },
    getItemFault := fun _ => none, setItemFault := fun _ => none,
    deleteItemFault := fun _ => none }

/-- Claim C1, counterexample: on an available device with a fault-free
store, `setupBiometricLogin` with the empty email succeeds, yet
`canUseBiometricLogin` is `false` and `authenticateWithBiometrics`
fails, because the stored empty string is falsy in the credential
read.  This refutes the claim as stated for every email and
password. -/
theorem enroll_empty_email_defeats_canOffer :
    isBiometricAvailable c1Env = true ∧
    setupBiometricLogin c1Env [] "" "pw" =
      ([(BIOMETRIC_ENABLED_KEY, "true"), (STORED_PASSWORD_KEY, "pw"),
        (STORED_EMAIL_KEY, "")], none) ∧
    canUseBiometricLogin c1Env
      [(BIOMETRIC_ENABLED_KEY, "true"), (STORED_PASSWORD_KEY, "pw"),
       (STORED_EMAIL_KEY, "")] = false ∧
    (authenticateWithBiometrics c1Env
      [(BIOMETRIC_ENABLED_KEY, "true"), (STORED_PASSWORD_KEY, "pw"),
       (STORED_EMAIL_KEY, "")] none).1.success = false := by
  decide

/-- Claim C1 as amended: for every NONEMPTY email and password, if
`setupBiometricLogin` succeeds, then on an available device with a
fault-free store read and a successful platform prompt,
`canUseBiometricLogin` is `true` and `authenticateWithBiometrics`
returns success carrying exactly the enrolled credential pair. -/
theorem enroll_nonempty_then_canOffer_and_release
    (env1 env2 : BiometricEnv) (s s1 : Store) (e p : String) (pm : Option String)
    (r : LAResult)
    (he : e ≠ "") (hp : p ≠ "")
    (hsetup : setupBiometricLogin env1 s e p = (s1, none))
    (havail : isBiometricAvailable env2 = true)
    (hg1 : env2.getItemFault BIOMETRIC_ENABLED_KEY = none)
    (hg2 : env2.getItemFault STORED_EMAIL_KEY = none)
    (hg3 : env2.getItemFault STORED_PASSWORD_KEY = none)
    (hpr : env2.authenticateAsyncR = .ok r) (hrs : r.success = true) :
    canUseBiometricLogin env2 s1 = true ∧
    (authenticateWithBiometrics env2 s1 pm).1 =
      { success := true, error := none, credentials := some { email := e, password := p } } := by
  have hs1 := setupBiometricLogin_ok_state env1 s s1 e p hsetup
  have hen : storeGet s1 BIOMETRIC_ENABLED_KEY = some "true" := by
    rw [hs1, storeGet_storeSet_self]
  have hem : storeGet s1 STORED_EMAIL_KEY = some e := by
    rw [hs1, storeGet_storeSet_ne _ _ _ _ enabled_key_ne_email_key,
      storeGet_storeSet_ne _ _ _ _ password_key_ne_email_key, storeGet_storeSet_self]
  have hpw : storeGet s1 STORED_PASSWORD_KEY = some p := by
    rw [hs1, storeGet_storeSet_ne _ _ _ _ enabled_key_ne_password_key, storeGet_storeSet_self]
  have hisen : isBiometricEnabled env2 s1 = true := by
    simp [isBiometricEnabled, getItemAsync, hg1, hen]
  have hcred : getStoredCredentials env2 s1 = some { email := e, password := p } := by
    simp [getStoredCredentials, getItemAsync, hg2, hg3, hem, hpw, truthyOpt,
      string_isEmpty_false_of_ne e he, string_isEmpty_false_of_ne p hp]
  refine ⟨?_, ?_⟩
  · simp [canUseBiometricLogin, havail, hisen, hasStoredCredentials, hcred]
  · simp [authenticateWithBiometrics, havail, hisen, hcred, hpr, hrs]

/-- Witness for the amended claim C1 at the concrete pair
`a@b.com` / `secret1`. -/
theorem enroll_nonempty_then_canOffer_and_release_witness :
    setupBiometricLogin c1Env [] "a@b.com" "secret1" =
      ([(BIOMETRIC_ENABLED_KEY, "true"), (STORED_PASSWORD_KEY, "secret1"),
        (STORED_EMAIL_KEY, "a@b.com")], none) ∧
    (canUseBiometricLogin c1Env
        [(BIOMETRIC_ENABLED_KEY, "true"), (STORED_PASSWORD_KEY, "secret1"),
         (STORED_EMAIL_KEY, "a@b.com")] = true ∧
      (authenticateWithBiometrics c1Env
        [(BIOMETRIC_ENABLED_KEY, "true"), (STORED_PASSWORD_KEY, "secret1"),
         (STORED_EMAIL_KEY, "a@b.com")] none).1 =
        { success := true, error := none,
          credentials := some { email := "a@b.com", password := "secret1" } }) := by
  refine ⟨by decide, ?_⟩
  exact enroll_nonempty_then_canOffer_and_release c1Env c1Env []
    [(BIOMETRIC_ENABLED_KEY, "true"), (STORED_PASSWORD_KEY, "secret1"),
     (STORED_EMAIL_KEY, "a@b.com")] "a@b.com" "secret1" none
    { success := true, error := none }
    (by decide) (by decide) (by decide) (by decide) (by decide) (by decide) (by decide)
    rfl (by decide)

/-! ## Claim C2 -/

/-- Concrete environment for the disable claim: available device, no
store faults. -/
def c2Env : BiometricEnv :=
  { hasHardwareR := .ok true, isEnrolledR := .ok true,
    supportedAuthenticationTypesR := .ok [LAAuthenticationType.FINGERPRINT],
    authenticateAsyncR := .ok { success := true, error := none },
    getItemFault := fun _ => none, setItemFault := fun _ => none,
    deleteItemFault := fun _ => none }

/-- Claim C2: after `disableBiometricLogin` completes (even when the
credential deletes faulted and raw bytes remain), `canUseBiometricLogin`
is `false` and a subsequent `authenticateWithBiometrics` fails without
releasing credentials; on an available device the failure is exactly
the NotEnabled error, and the trace shows that only the preference key
is read — the stored credentials are never touched. -/
theorem disable_then_canOffer_false_and_not_enabled
    (env1 env2 : BiometricEnv) (s s1 : Store) (pm : Option String)
    (h : disableBiometricLogin env1 s = (s1, none)) :
    canUseBiometricLogin env2 s1 = false ∧
    (authenticateWithBiometrics env2 s1 pm).1.success = false ∧
    (authenticateWithBiometrics env2 s1 pm).1.credentials = none ∧
    (isBiometricAvailable env2 = true →
      (authenticateWithBiometrics env2 s1 pm).1.error = some "Biometric login is not enabled" ∧
      (authenticateWithBiometrics env2 s1 pm).2 = [Event.getItem BIOMETRIC_ENABLED_KEY]) := by
  have hget := storeGet_enabled_none_after_disable env1 s s1 h
  have hen := isBiometricEnabled_false_of_get_none env2 s1 hget
  refine ⟨by simp [canUseBiometricLogin, hen], ?_, ?_, ?_⟩ <;>
    cases ha : isBiometricAvailable env2 <;>
      simp [authenticateWithBiometrics, ha, hen]

/-- Witness for claim C2 at a concrete enrolled store. -/
theorem disable_then_canOffer_false_and_not_enabled_witness :
    disableBiometricLogin c2Env
      [(BIOMETRIC_ENABLED_KEY, "true"), (STORED_EMAIL_KEY, "a@b.com"),
       (STORED_PASSWORD_KEY, "secret1")] = ([], none) ∧
    (canUseBiometricLogin c2Env [] = false ∧
      (authenticateWithBiometrics c2Env [] none).1.success = false ∧
      (authenticateWithBiometrics c2Env [] none).1.credentials = none ∧
      (isBiometricAvailable c2Env = true →
        (authenticateWithBiometrics c2Env [] none).1.error = some "Biometric login is not enabled" ∧
        (authenticateWithBiometrics c2Env [] none).2 = [Event.getItem BIOMETRIC_ENABLED_KEY])) := by
  refine ⟨by decide, ?_⟩
  exact disable_then_canOffer_false_and_not_enabled c2Env c2Env
    [(BIOMETRIC_ENABLED_KEY, "true"), (STORED_EMAIL_KEY, "a@b.com"),
     (STORED_PASSWORD_KEY, "secret1")] [] none (by decide)

/-! ## Claim C3 -/

/-- Concrete environment for the unavailable claim: hardware present
but nothing enrolled. -/
def c3Env : BiometricEnv :=
  { hasHardwareR := .ok true, isEnrolledR := .ok false,
    supportedAuthenticationTypesR := .ok [LAAuthenticationType.FINGERPRINT],
    authenticateAsyncR := .ok { success := true, error := none },
    getItemFault := fun _ => none, setItemFault := fun _ => none,
    deleteItemFault := fun _ => none }

/-- Claim C3: when `isBiometricAvailable` is `false`,
`authenticateWithBiometrics` fails with the NotAvailable error and its
trace is empty — the platform prompt is never invoked and the secure
store is never touched (the function performs no writes in any case). -/
theorem authenticate_unavailable_no_prompt
    (env : BiometricEnv) (s : Store) (pm : Option String)
    (h : isBiometricAvailable env = false) :
    authenticateWithBiometrics env s pm =
      ({ success := false,
         error := some "Biometric authentication is not available on this device",
         credentials := none }, []) := by
  simp [authenticateWithBiometrics, h]

/-- Witness for claim C3 on a not-enrolled device with an enrolled
store. -/
theorem authenticate_unavailable_no_prompt_witness :
    isBiometricAvailable c3Env = false ∧
    authenticateWithBiometrics c3Env
      [(BIOMETRIC_ENABLED_KEY, "true"), (STORED_EMAIL_KEY, "a@b.com"),
       (STORED_PASSWORD_KEY, "secret1")] (some "hello") =
      ({ success := false,
         error := some "Biometric authentication is not available on this device",
         credentials := none }, []) := by
  refine ⟨by decide, ?_⟩
  exact authenticate_unavailable_no_prompt c3Env
    [(BIOMETRIC_ENABLED_KEY, "true"), (STORED_EMAIL_KEY, "a@b.com"),
     (STORED_PASSWORD_KEY, "secret1")] (some "hello") (by decide)

/-! ## Claim C4 -/

/-- Concrete environment for the canOffer claim: no hardware, but a
fully enrolled store. -/
def c4Env : BiometricEnv :=
  { hasHardwareR := .ok false, isEnrolledR := .ok true,
    supportedAuthenticationTypesR := .ok [],
    authenticateAsyncR := .ok { success := false, error := some "authentication_failed" },
    getItemFault := fun _ => none, setItemFault := fun _ => none,
    deleteItemFault := fun _ => none }

/-- Claim C4: `canUseBiometricLogin` equals the conjunction of
availability, the enabled preference and stored credentials; in
particular it is `false` whenever availability is `false`, for every
device and store state. -/
theorem canOffer_eq_available_and_enabled_and_stored (env : BiometricEnv) (s : Store) :
    canUseBiometricLogin env s =
      (isBiometricAvailable env && isBiometricEnabled env s && hasStoredCredentials env s) ∧
    (isBiometricAvailable env = false → canUseBiometricLogin env s = false) := by
  exact ⟨rfl, fun h => by simp [canUseBiometricLogin, h]⟩

/-- Witness for claim C4 on a hardware-less device whose store still
holds a preference and credentials. -/
theorem canOffer_eq_available_and_enabled_and_stored_witness :
    canUseBiometricLogin c4Env
        [(BIOMETRIC_ENABLED_KEY, "true"), (STORED_EMAIL_KEY, "a@b.com"),
         (STORED_PASSWORD_KEY, "secret1")] =
      (isBiometricAvailable c4Env &&
        isBiometricEnabled c4Env
          [(BIOMETRIC_ENABLED_KEY, "true"), (STORED_EMAIL_KEY, "a@b.com"),
           (STORED_PASSWORD_KEY, "secret1")] &&
        hasStoredCredentials c4Env
          [(BIOMETRIC_ENABLED_KEY, "true"), (STORED_EMAIL_KEY, "a@b.com"),
           (STORED_PASSWORD_KEY, "secret1")]) ∧
    (isBiometricAvailable c4Env = false →
      canUseBiometricLogin c4Env
        [(BIOMETRIC_ENABLED_KEY, "true"), (STORED_EMAIL_KEY, "a@b.com"),
         (STORED_PASSWORD_KEY, "secret1")] = false) :=
  canOffer_eq_available_and_enabled_and_stored c4Env
    [(BIOMETRIC_ENABLED_KEY, "true"), (STORED_EMAIL_KEY, "a@b.com"),
     (STORED_PASSWORD_KEY, "secret1")]

/-! ## Claim C5 -/

/-- Concrete environment for the credential-read-ordering claim:
available device, fingerprint, prompt succeeds, no store faults. -/
def c5Env : BiometricEnv :=
  { hasHardwareR := .ok true, isEnrolledR := .ok true,
    supportedAuthenticationTypesR := .ok [LAAuthenticationType.FINGERPRINT],
    authenticateAsyncR := .ok { success := true, error := none },
    getItemFault := fun _ => none, setItemFault := fun _ => none,
    deleteItemFault := fun _ => none }

/-- Concrete enrolled store for the credential-read-ordering claim. -/
def c5Store : Store :=
  [(BIOMETRIC_ENABLED_KEY, "true"), (STORED_EMAIL_KEY, "a@b.com"),
   (STORED_PASSWORD_KEY, "secret1")]

/-- Claim C5, counterexample: in a successful run, the trace of
`authenticateWithBiometrics` reads the stored email and password keys
(positions 2 and 3) strictly BEFORE the platform prompt (position 4),
refuting the claim that no step reads the stored values before the
prompt succeeds — the flow reads them first as an existence check. -/
theorem credentials_read_before_prompt :
    (authenticateWithBiometrics c5Env c5Store none).2 =
      [Event.getItem BIOMETRIC_ENABLED_KEY, Event.getItem STORED_EMAIL_KEY,
       Event.getItem STORED_PASSWORD_KEY,
       Event.promptShown "Login to MediVault with Fingerprint"] ∧
    (authenticateWithBiometrics c5Env c5Store none).1.success = true := by
  decide

/-- Claim C5 as amended: the cached credential is RELEASED to the
caller only when the platform prompt reported success — whenever the
result carries credentials, the prompt call returned a success result
(the stored values are, however, read before the prompt as an
existence precondition). -/
theorem credentials_released_only_after_prompt_success
    (env : BiometricEnv) (s : Store) (pm : Option String)
    (h : (authenticateWithBiometrics env s pm).1.credentials.isSome = true) :
    ∃ r, env.authenticateAsyncR = Except.ok r ∧ r.success = true := by
  cases heq : env.authenticateAsyncR with
  | error err =>
    exfalso
    unfold authenticateWithBiometrics at h
    rw [heq] at h
    split at h
    · simp at h
    · split at h
      · simp at h
      · split at h
        · simp at h
        · simp at h
  | ok r =>
    cases hs : r.success with
    | true => exact ⟨r, rfl, hs⟩
    | false =>
      exfalso
      unfold authenticateWithBiometrics at h
      rw [heq] at h
      split at h
      · simp at h
      · split at h
        · simp at h
        · split at h
          · simp at h
          · simp [hs] at h

/-- Witness for the amended claim C5 at the concrete enrolled store. -/
theorem credentials_released_only_after_prompt_success_witness :
    ((authenticateWithBiometrics c5Env c5Store (some "login")).1.credentials.isSome = true) ∧
    (∃ r, c5Env.authenticateAsyncR = Except.ok r ∧ r.success = true) :=
  ⟨by decide,
    credentials_released_only_after_prompt_success c5Env c5Store (some "login") (by decide)⟩

/-! ## Claim C6 -/

/-- Concrete remote user for the sign-up claim. -/
def c6User : FirebaseUser :=
  { uid := "u1", email := some "a@b.com", displayName := none,
    photoURL := none, emailVerified := false }

/-- Concrete remote environment for the sign-up claim: account creation
succeeds, the profile update throws a network error. -/
def c6Env : FirebaseAuthEnv :=
  { createUserR := .ok c6User,
    updateProfileR := .error { code := some "auth/network-request-failed",
                               message := some "net down" } }

/-- Concrete sign-up request with a display name. -/
def c6Data : SignUpData :=
  { email := "a@b.com", password := "secret1", displayName := some "Dr X" }

/-- Claim C6, counterexample: remote account creation succeeds, the
display-name update fails, and `signUp` returns the mapped error
instead of the created session — the update is NOT best-effort,
refuting the claim that its failure does not cause `signUp` to report
an error. -/
theorem signUp_errors_when_profile_update_fails :
    c6Env.createUserR = Except.ok c6User ∧
    (signUp c6Env c6Data).1 = Except.error "Network error. Please check your connection." :=
  ⟨rfl, rfl⟩

/-- Claim C6 as amended: when account creation succeeds, a truthy
display name is given and the profile update fails, `signUp` reports
the auth error mapped from the update failure code; the trace shows no
compensating account deletion is issued (the adapter has none), so the
remote account creation itself is not rolled back. -/
theorem signUp_propagates_profile_update_failure
    (env : FirebaseAuthEnv) (data : SignUpData) (u : FirebaseUser) (e : JsError)
    (hc : env.createUserR = .ok u) (hd : truthyOpt data.displayName = true)
    (hu : env.updateProfileR = .error e) :
    signUp env data =
      (.error (getAuthErrorMessage (e.code.getD "")),
       [FbEvent.createUserCall, FbEvent.updateProfileCall]) := by
  simp [signUp, hc, hd, hu]

/-- Witness for the amended claim C6 at the concrete failing update. -/
theorem signUp_propagates_profile_update_failure_witness :
    c6Env.createUserR = Except.ok c6User ∧
    truthyOpt c6Data.displayName = true ∧
    c6Env.updateProfileR =
      Except.error { code := some "auth/network-request-failed", message := some "net down" } ∧
    signUp c6Env c6Data =
      (Except.error "Network error. Please check your connection.",
       [FbEvent.createUserCall, FbEvent.updateProfileCall]) := by
  refine ⟨rfl, by decide, rfl, ?_⟩
  exact signUp_propagates_profile_update_failure c6Env c6Data c6User
    { code := some "auth/network-request-failed", message := some "net down" }
    rfl (by decide) rfl

/-! ## Claim C7 -/

/-- Claim C7: when the Google provider module was not loadable at
process start, `isGoogleSignInAvailable` is `false` and every direct
`signInWithGoogle` call fails with the ProviderUnavailable error with
an empty trace — no play-services check, no token request, no
credential exchange, for every behaviour of the OAuth backend. -/
theorem google_unavailable_fails_without_oauth (env : GoogleCallEnv) :
    isGoogleSignInAvailable (loadGoogleSignInModule none) = false ∧
    signInWithGoogle (loadGoogleSignInModule none) env =
      (Except.error "Google Sign-In is not available. Please use a development build instead of Expo Go.",
       []) := by
  exact ⟨rfl, rfl⟩

/-! ## Claim C8 -/

/-- Concrete environment for the idempotence claim: no store faults. -/
def c8Env : BiometricEnv :=
  { hasHardwareR := .ok true, isEnrolledR := .ok true,
    supportedAuthenticationTypesR := .ok [LAAuthenticationType.FINGERPRINT],
    authenticateAsyncR := .ok { success := true, error := none },
    getItemFault := fun _ => none, setItemFault := fun _ => none,
    deleteItemFault := fun _ => none }

/-- Claim C8: `disableBiometricLogin` is idempotent — if a call
completes without error, a second call on the resulting store also
completes without error and leaves the store exactly unchanged; the
preference key is cleared in that end state. -/
theorem disable_idempotent (env : BiometricEnv) (s s1 : Store)
    (h : disableBiometricLogin env s = (s1, none)) :
    disableBiometricLogin env s1 = (s1, none) ∧
    storeGet s1 BIOMETRIC_ENABLED_KEY = none := by
  obtain ⟨hf, hs1⟩ := disableBiometricLogin_ok_state env s s1 h
  refine ⟨?_, storeGet_enabled_none_after_disable env s s1 h⟩
  unfold disableBiometricLogin setBiometricEnabled
  rw [hf]
  simp only []
  rw [hs1]
  exact congrArg (fun t => (t, Option.none)) (disable_fixed_point env s)

/-- Witness for claim C8 at a concrete enrolled store. -/
theorem disable_idempotent_witness :
    disableBiometricLogin c8Env
      [(BIOMETRIC_ENABLED_KEY, "true"), (STORED_EMAIL_KEY, "a@b.com"),
       (STORED_PASSWORD_KEY, "secret1")] = ([], none) ∧
    (disableBiometricLogin c8Env [] = ([], none) ∧
      storeGet [] BIOMETRIC_ENABLED_KEY = none) := by
  refine ⟨by decide, ?_⟩
  exact disable_idempotent c8Env
    [(BIOMETRIC_ENABLED_KEY, "true"), (STORED_EMAIL_KEY, "a@b.com"),
     (STORED_PASSWORD_KEY, "secret1")] [] (by decide)

/-! ## Claim C9 -/

/-- Concrete environment for the modality claim: the platform query
for supported types throws. -/
def c9Env : BiometricEnv :=
  { hasHardwareR := .ok true, isEnrolledR := .ok true,
    supportedAuthenticationTypesR := .error { code := none, message := some "query failed" },
    authenticateAsyncR := .ok { success := true, error := none },
    getItemFault := fun _ => none, setItemFault := fun _ => none,
    deleteItemFault := fun _ => none }

/-- Claim C9: when the platform query for supported types fails,
`getSupportedBiometricTypes` returns the sentinel list containing only
the `none` type, whose denotation as a set of modalities is empty. -/
theorem supported_modalities_empty_on_query_failure (env : BiometricEnv) (err : JsError)
    (h : env.supportedAuthenticationTypesR = .error err) :
    getSupportedBiometricTypes env = [BiometricType.none] ∧
    modalitiesOf (getSupportedBiometricTypes env) = [] := by
  simp [getSupportedBiometricTypes, h, modalitiesOf]

/-- Witness for claim C9 at the concrete failing query. -/
theorem supported_modalities_empty_on_query_failure_witness :
    c9Env.supportedAuthenticationTypesR =
      Except.error { code := none, message := some "query failed" } ∧
    (getSupportedBiometricTypes c9Env = [BiometricType.none] ∧
      modalitiesOf (getSupportedBiometricTypes c9Env) = []) :=
  ⟨rfl, supported_modalities_empty_on_query_failure c9Env
    { code := none, message := some "query failed" } rfl⟩

/-! ## Claim C10 -/

/-- Claim C10: `authenticateWithBiometrics` is total — it is a function
into `BiometricAuthResult` for every environment (every platform
outcome, including thrown store and prompt exceptions) and its result
carries credentials exactly when it reports success and an error
message exactly when it reports failure. -/
theorem authenticate_total_result (env : BiometricEnv) (s : Store) (pm : Option String) :
    ((authenticateWithBiometrics env s pm).1.credentials.isSome
       = (authenticateWithBiometrics env s pm).1.success) ∧
    ((authenticateWithBiometrics env s pm).1.error.isSome
       = !(authenticateWithBiometrics env s pm).1.success) := by
  unfold authenticateWithBiometrics
  split
  · simp
  · split
    · simp
    · split
      · simp
      · split
        · simp
        · split
          · simp
          · simp
